import Mathlib

/-!
Shallow embedding of the AWS resource-inventory scanner
(`scripts/aws_resource_inventory.py` and its service modules) together
with proofs about its retry wrapper, orchestration, filtering and
serialization behaviour.

Remote calls are modelled as black boxes: the behaviour of a wrapped
callable is a function from attempt index to an outcome (a returned
value, a `ClientError` with an error code, or some other exception),
and the behaviour of the whole provider is a function from a
(service, method, region) triple to the `Option` result that
`make_api_call` hands back to the orchestrator.
-/

/-- A naive datetime, second precision (the only precision the program
prints).  Models Python `datetime.datetime` values that `boto3`
responses may carry. -/
structure Datetime where
  year : Nat
  month : Nat
  day : Nat
  hour : Nat
  minute : Nat
  second : Nat
deriving DecidableEq, Repr

/-- Python values as they occur in the inventory structures: JSON-like
data plus `None` and raw `datetime` objects. -/
inductive PyVal where
  | str : String → PyVal
  | int : Int → PyVal
  | bool : Bool → PyVal
  | none : PyVal
  | datetime : Datetime → PyVal
  | list : List PyVal → PyVal
  | dict : List (String × PyVal) → PyVal
deriving Repr

/- ----------------------------------------------------------------
`make_api_call` (scripts/utils/aws_utils.py, lines 22-43)
---------------------------------------------------------------- -/

/-- One invocation of the wrapped callable either returns a value,
raises a `botocore` `ClientError` carrying an error code, or raises
some other exception. -/
inductive Outcome (V : Type) where
  | value : V → Outcome V
  | clientError : String → Outcome V
  | otherError : Outcome V
deriving DecidableEq

/-- The error codes `make_api_call` classifies as throttling
(aws_utils.py line 31). -/
def throttleCodes : List String := ["RequestLimitExceeded", "Throttling"]

/-- Result of running `make_api_call`: the returned value (`none` is
Python `None`), how many times the wrapped callable was invoked, and
the total seconds passed to `time.sleep`. -/
structure ApiResult (V : Type) where
  result : Option V
  calls : Nat
  slept : Nat
deriving DecidableEq

/-- The `for attempt in range(max_retries)` loop of `make_api_call`.
`attempts` is the list of remaining attempt indices; falling off the
loop is Python returning `None` implicitly. -/
def runAttempts (b : Nat → Outcome V) (retryDelay maxRetries : Nat) :
    List Nat → Nat → Nat → ApiResult V
  | [], calls, slept => ⟨Option.none, calls, slept⟩
  | attempt :: rest, calls, slept =>
    match b attempt with
    | .value v => ⟨some v, calls + 1, slept⟩
    | .clientError code =>
      if code ∈ throttleCodes then
        if attempt = maxRetries - 1 then ⟨Option.none, calls + 1, slept⟩
        else
          runAttempts b retryDelay maxRetries rest (calls + 1)
            (slept + retryDelay * 2 ^ attempt)
      else ⟨Option.none, calls + 1, slept⟩
    | .otherError => ⟨Option.none, calls + 1, slept⟩

/-- `make_api_call` with its hardcoded `max_retries = 3`,
`retry_delay = 1` (aws_utils.py lines 24-25). -/
def make_api_call (b : Nat → Outcome V) : ApiResult V :=
  runAttempts b 1 3 (List.range 3) 0 0

/-- A behaviour that always raises a throttling `ClientError`. -/
def alwaysThrottle : Nat → Outcome Nat := fun _ => .clientError "Throttling"

/-- A behaviour that throttles on the first attempt and then returns 42. -/
def throttleOnceThen42 : Nat → Outcome Nat :=
  fun i => if i = 0 then .clientError "Throttling" else .value 42

/-- A behaviour that raises a non-throttling `ClientError` at once. -/
def accessDenied : Nat → Outcome Nat := fun _ => .clientError "AccessDenied"

theorem make_api_call_throttle_then_value
    (b : Nat → Outcome V) (N : Nat) (v : V) (hN : N < 3)
    (hth : ∀ i, i < N → ∃ c, b i = .clientError c ∧ c ∈ throttleCodes)
    (hv : b N = .value v) :
    (make_api_call b).result = some v := by
  unfold make_api_call
  interval_cases N
  · simp [runAttempts, List.range_succ, hv]
  · obtain ⟨c0, hc0, hm0⟩ := hth 0 (by norm_num)
    simp [runAttempts, List.range_succ, hv, hc0, hm0]
  · obtain ⟨c0, hc0, hm0⟩ := hth 0 (by norm_num)
    obtain ⟨c1, hc1, hm1⟩ := hth 1 (by norm_num)
    simp [runAttempts, List.range_succ, hv, hc0, hm0, hc1, hm1]

theorem make_api_call_all_throttle
    (b : Nat → Outcome V)
    (hth : ∀ i, i < 3 → ∃ c, b i = .clientError c ∧ c ∈ throttleCodes) :
    make_api_call b = ⟨Option.none, 3, 3⟩ := by
  obtain ⟨c0, hc0, hm0⟩ := hth 0 (by norm_num)
  obtain ⟨c1, hc1, hm1⟩ := hth 1 (by norm_num)
  obtain ⟨c2, hc2, hm2⟩ := hth 2 (by norm_num)
  unfold make_api_call
  simp [runAttempts, List.range_succ, hc0, hm0, hc1, hm1, hc2, hm2]

theorem make_api_call_nonthrottle_clientError
    (b : Nat → Outcome V) (c : String)
    (h0 : b 0 = .clientError c) (hc : c ∉ throttleCodes) :
    make_api_call b = ⟨Option.none, 1, 0⟩ := by
  unfold make_api_call
  simp [runAttempts, List.range_succ, h0, hc]

theorem make_api_call_first_value
    (b : Nat → Outcome V) (v : V) (h0 : b 0 = .value v) :
    make_api_call b = ⟨some v, 1, 0⟩ := by
  unfold make_api_call
  simp [runAttempts, List.range_succ, h0]

theorem make_api_call_all_raise
    (b : Nat → Outcome V) (h : ∀ i v, b i ≠ .value v) :
    (make_api_call b).result = Option.none := by
  unfold make_api_call
  simp only [List.range_succ, List.range_zero, List.nil_append,
    List.cons_append, runAttempts]
  cases h0 : b 0 with
  | value v => exact absurd h0 (h 0 v)
  | otherError => simp [runAttempts]
  | clientError c0 =>
    by_cases hm0 : c0 ∈ throttleCodes
    · simp only [hm0, if_true, if_neg (by norm_num : ¬(0 : Nat) = 3 - 1)]
      cases h1 : b 1 with
      | value v => exact absurd h1 (h 1 v)
      | otherError => simp [runAttempts]
      | clientError c1 =>
        by_cases hm1 : c1 ∈ throttleCodes
        · simp only [runAttempts, h1, hm1, if_true,
            if_neg (by norm_num : ¬(1 : Nat) = 3 - 1)]
          cases h2 : b 2 with
          | value v => exact absurd h2 (h 2 v)
          | otherError => simp [runAttempts]
          | clientError c2 => by_cases hm2 : c2 ∈ throttleCodes <;>
              simp [runAttempts, hm2]
        · simp [runAttempts, h1, hm1]
    · simp [runAttempts, hm0]

/- ----------------------------------------------------------------
Service classes and their methods (scripts/services/*.py)
---------------------------------------------------------------- -/

/-- The methods defined on `GlobalServices` (services/global_services.py). -/
def globalServicesMethods : List String :=
  ["get_s3_buckets", "get_cloudfront_distributions", "get_waf_info",
   "get_route53_info", "get_iam_info"]

/-- The methods defined on `NetworkServices` (services/network.py).
Note: there is no `get_vpcs` method. -/
def networkServicesMethods : List String :=
  ["get_vpcs_and_subnets", "get_internet_gateways", "get_nat_gateways",
   "get_transit_gateways", "get_vpc_endpoints", "get_route_tables",
   "get_network_interfaces", "get_elastic_ips", "get_elb_info"]

/-- The methods defined on `DatabaseServices` (services/database.py). -/
def databaseServicesMethods : List String :=
  ["get_ebs_volumes", "get_efs_filesystems", "get_rds_instances",
   "get_dynamodb_tables", "get_elasticache_clusters", "get_s3_bucket_policies"]

/-- The methods defined on `ComputeServices` (services/compute.py). -/
def computeServicesMethods : List String :=
  ["get_ec2_instances", "get_auto_scaling_groups", "get_launch_templates",
   "get_ecs_info", "get_eks_clusters", "get_lambda_functions",
   "get_ecr_repositories"]

/-- The methods defined on `SecurityServices` (services/security.py). -/
def securityServicesMethods : List String :=
  ["get_security_groups", "get_network_acls", "get_acm_certificates",
   "get_kms_keys", "get_secrets", "get_iam_policies"]

/-- Python attribute lookup on a service object: the set of method
names its class defines.  The service names are the attribute names of
`AWSResourceInventory` (`self.global_services`, `self.network`, ...). -/
def methodsOf : String → List String
  | "global_services" => globalServicesMethods
  | "network" => networkServicesMethods
  | "database" => databaseServicesMethods
  | "compute" => computeServicesMethods
  | "security" => securityServicesMethods
  | _ => []

/-- One invocation of a service method through `make_api_call`:
which service object, which method, and the region argument passed
(`Option.none` when the call passes no region). -/
structure MethodCall where
  service : String
  method : String
  region : Option String
deriving DecidableEq, Repr

/-- The provider boundary for the orchestrator: for every method
invocation, the `Option` result that `make_api_call` hands back
(`Option.none` when the query failed and degraded to `None`). -/
def Behavior : Type := MethodCall → Option PyVal

/-- A Python raised exception that escapes `generate_inventory`.
`attributeError m` models `AttributeError` from looking up a method
`m` that the service class does not define. -/
inductive PyExc where
  | attributeError : String → PyExc
deriving DecidableEq, Repr

/-- One entry of a dict literal in `generate_inventory`: the dict key,
the service attribute on `self`, the method name, and whether the
`region` loop variable is passed as an argument. -/
structure EntrySpec where
  key : String
  service : String
  method : String
  takesRegion : Bool
deriving DecidableEq, Repr

/-- The `regional_data` dict literal of `generate_inventory`
(aws_resource_inventory.py lines 908-951), entries in source order.
`dynamodb_tables` appears twice (lines 923 and 946), `get_rds_instances`
is bound to both `rds_info` (line 922) and `rds_instances` (line 945),
`s3_bucket_policies` (line 925) is invoked without the region argument,
and `vpcs` (line 949) refers to the nonexistent `network.get_vpcs`. -/
def regionalEntrySpecs : List EntrySpec :=
  [⟨"vpc_info", "network", "get_vpcs_and_subnets", true⟩,
   ⟨"internet_gateways", "network", "get_internet_gateways", true⟩,
   ⟨"nat_gateways", "network", "get_nat_gateways", true⟩,
   ⟨"transit_gateways", "network", "get_transit_gateways", true⟩,
   ⟨"vpc_endpoints", "network", "get_vpc_endpoints", true⟩,
   ⟨"route_tables", "network", "get_route_tables", true⟩,
   ⟨"network_interfaces", "network", "get_network_interfaces", true⟩,
   ⟨"elastic_ips", "network", "get_elastic_ips", true⟩,
   ⟨"ebs_volumes", "database", "get_ebs_volumes", true⟩,
   ⟨"efs_filesystems", "database", "get_efs_filesystems", true⟩,
   ⟨"rds_info", "database", "get_rds_instances", true⟩,
   ⟨"dynamodb_tables", "database", "get_dynamodb_tables", true⟩,
   ⟨"elasticache_clusters", "database", "get_elasticache_clusters", true⟩,
   ⟨"s3_bucket_policies", "database", "get_s3_bucket_policies", false⟩,
   ⟨"ec2_instances", "compute", "get_ec2_instances", true⟩,
   ⟨"auto_scaling_groups", "compute", "get_auto_scaling_groups", true⟩,
   ⟨"launch_templates", "compute", "get_launch_templates", true⟩,
   ⟨"ecs_clusters", "compute", "get_ecs_info", true⟩,
   ⟨"eks_clusters", "compute", "get_eks_clusters", true⟩,
   ⟨"lambda_functions", "compute", "get_lambda_functions", true⟩,
   ⟨"ecr_repositories", "compute", "get_ecr_repositories", true⟩,
   ⟨"security_groups", "security", "get_security_groups", true⟩,
   ⟨"network_acls", "security", "get_network_acls", true⟩,
   ⟨"acm_certificates", "security", "get_acm_certificates", true⟩,
   ⟨"kms_keys", "security", "get_kms_keys", true⟩,
   ⟨"secrets", "security", "get_secrets", true⟩,
   ⟨"iam_policies", "security", "get_iam_policies", true⟩,
   ⟨"rds_instances", "database", "get_rds_instances", true⟩,
   ⟨"dynamodb_tables", "database", "get_dynamodb_tables", true⟩,
   ⟨"vpcs", "network", "get_vpcs", true⟩,
   ⟨"load_balancers", "network", "get_elb_info", true⟩]

/-- The global-service entries of the `inventory_data` dict literal
(aws_resource_inventory.py lines 898-902), entries in source order;
none of these calls passes a region. -/
def globalEntrySpecs : List EntrySpec :=
  [⟨"iam", "global_services", "get_iam_info", false⟩,
   ⟨"s3_buckets", "global_services", "get_s3_buckets", false⟩,
   ⟨"route53_zones", "global_services", "get_route53_info", false⟩,
   ⟨"cloudfront", "global_services", "get_cloudfront_distributions", false⟩,
   ⟨"waf", "global_services", "get_waf_info", false⟩]

/-- Evaluate the value expressions of a dict literal left to right.
Each entry looks up the method on its service object (raising
`AttributeError` if the class does not define it, before any call is
made) and otherwise invokes it through `make_api_call`, whose result
is given by the behaviour.  Returns the trace of method invocations
actually performed (even if a later entry raises) and either the
association list of evaluated entries or the escaping exception. -/
def evalEntries (b : Behavior) (region : Option String) :
    List EntrySpec → List MethodCall × Except PyExc (List (String × Option PyVal))
  | [] => ([], .ok [])
  | e :: rest =>
    if e.method ∈ methodsOf e.service then
      let call : MethodCall :=
        ⟨e.service, e.method, if e.takesRegion then region else Option.none⟩
      let (log, res) := evalEntries b region rest
      (call :: log, res.map (fun kvs => (e.key, b call) :: kvs))
    else ([], .error (.attributeError e.method))

/-- Insert into a Python dict held as an association list: a later
assignment to an existing key overwrites its value in place. -/
def dictInsert (d : List (String × α)) (k : String) (v : α) : List (String × α) :=
  if d.any (fun p => p.1 = k) then
    d.map (fun p => if p.1 = k then (k, v) else p)
  else d ++ [(k, v)]

/-- Build a Python dict from the entries of a dict literal evaluated
in order: a duplicated key keeps the last value. -/
def toDict (kvs : List (String × α)) : List (String × α) :=
  kvs.foldl (fun d kv => dictInsert d kv.1 kv.2) []

/-- The dict comprehension of `generate_inventory` line 954:
`{k: v for k, v in regional_data.items() if v is not None}`. -/
def filterNotNone (d : List (String × Option PyVal)) : List (String × PyVal) :=
  d.filterMap (fun kv => kv.2.map (fun v => (kv.1, v)))

/-- Scan one region: evaluate the `regional_data` dict literal, then
drop the entries whose value is `None`. -/
def scanRegion (b : Behavior) (region : String) :
    List MethodCall × Except PyExc (List (String × PyVal)) :=
  let (log, res) := evalEntries b (some region) regionalEntrySpecs
  (log, res.map (fun kvs => filterNotNone (toDict kvs)))

/-- The `for region in self.regions` loop of `generate_inventory`:
an exception escaping one region scan aborts the whole loop. -/
def scanRegions (b : Behavior) :
    List String → List MethodCall × Except PyExc (List (String × List (String × PyVal)))
  | [] => ([], .ok [])
  | r :: rest =>
    let (log, res) := scanRegion b r
    match res with
    | .error e => (log, .error e)
    | .ok rd =>
      let (log2, res2) := scanRegions b rest
      (log ++ log2, res2.map (fun tail => (r, rd) :: tail))

/-- The inventory structure assembled by `generate_inventory`:
the timestamp string, the five global entries (kept even when `None`),
and the per-region mappings in scan order. -/
structure Snapshot where
  timestamp : String
  globals : List (String × Option PyVal)
  regions : List (String × List (String × PyVal))
deriving Repr

/-- `AWSResourceInventory.generate_inventory`
(aws_resource_inventory.py lines 888-957): evaluate the five global
queries, then scan every discovered region; returns the trace of
method invocations and either the assembled snapshot or the exception
that aborted the run. -/
def generate_inventory (b : Behavior) (timestamp : String)
    (regions : List String) : List MethodCall × Except PyExc Snapshot :=
  let (glog, gres) := evalEntries b Option.none globalEntrySpecs
  match gres with
  | .error e => (glog, .error e)
  | .ok gkvs =>
    let (rlog, rres) := scanRegions b regions
    (glog ++ rlog,
     rres.map (fun rs => ⟨timestamp, toDict gkvs, rs⟩))

/-- The number of invocations of a given method in a run trace. -/
def countMethod (log : List MethodCall) (m : String) : Nat :=
  (log.filter (fun c => c.method = m)).length

/- ----------------------------------------------------------------
Region discovery and the overall run
(scripts/utils/aws_utils.py lines 45-53, aws_resource_inventory.py
lines 22-33 and 965-972)
---------------------------------------------------------------- -/

/-- Outcome of the bootstrap `describe_regions` call. -/
inductive BootOutcome where
  | ok : List String → BootOutcome
  | clientError : String → BootOutcome
  | otherError : BootOutcome

/-- An exception escaping the bootstrap uncaught. -/
inductive BootExc where
  | uncaught : BootExc
deriving DecidableEq

/-- `get_aws_regions` (aws_utils.py lines 45-53): a `ClientError` from
`describe_regions` is caught, logged and turned into an empty region
list; any other exception propagates out of the function. -/
def get_aws_regions : BootOutcome → Except BootExc (List String)
  | .ok rs => .ok rs
  | .clientError _ => .ok []
  | .otherError => .error .uncaught

/-- An error aborting the overall run. -/
inductive RunError where
  | boot : BootExc → RunError
  | scan : PyExc → RunError
deriving DecidableEq

/-- The overall run (`main` → `AWSResourceInventory.__init__` →
`generate_inventory`): region discovery happens in `__init__`; an
exception escaping it aborts before any scanning, otherwise the
discovered regions drive `generate_inventory`. -/
def runInventory (bo : BootOutcome) (b : Behavior) (ts : String) :
    List MethodCall × Except RunError Snapshot :=
  match get_aws_regions bo with
  | .error e => ([], .error (.boot e))
  | .ok regions =>
    let (log, res) := generate_inventory b ts regions
    (log, match res with
          | .error e => .error (.scan e)
          | .ok s => .ok s)

/- ----------------------------------------------------------------
JSON serialization (`save_inventory`,
aws_resource_inventory.py lines 959-963: json.dump(..., indent=2,
default=str) followed by a json.load of the written file)
---------------------------------------------------------------- -/

/-- The values JSON can hold (what `json.load` gives back). -/
inductive JsonVal where
  | str : String → JsonVal
  | int : Int → JsonVal
  | bool : Bool → JsonVal
  | null : JsonVal
  | arr : List JsonVal → JsonVal
  | obj : List (String × JsonVal) → JsonVal
deriving Repr

/-- Zero-pad a number to two digits, as Python datetime printing does. -/
def pad2 (n : Nat) : String := if n < 10 then "0" ++ toString n else toString n

/-- `str(datetime)`: the space-separated rendering Python produces,
which is what `json.dump(default=str)` writes for a datetime. -/
def Datetime.pyStr (d : Datetime) : String :=
  toString d.year ++ "-" ++ pad2 d.month ++ "-" ++ pad2 d.day ++ " " ++
    pad2 d.hour ++ ":" ++ pad2 d.minute ++ ":" ++ pad2 d.second

/-- `datetime.isoformat()`: the `T`-separated ISO-8601 rendering used
for the snapshot's top-level timestamp (line 892). -/
def Datetime.isoformat (d : Datetime) : String :=
  toString d.year ++ "-" ++ pad2 d.month ++ "-" ++ pad2 d.day ++ "T" ++
    pad2 d.hour ++ ":" ++ pad2 d.minute ++ ":" ++ pad2 d.second

mutual

/-- `json.dump(..., default=str)` on a Python value: JSON-native data
passes through; a datetime is not JSON-serializable, so the encoder
falls back to `default=str` and writes its `str()` rendering. -/
def PyVal.toJson : PyVal → JsonVal
  | .str s => .str s
  | .int n => .int n
  | .bool b => .bool b
  | .none => .null
  | .datetime d => .str d.pyStr
  | .list xs => .arr (toJsonList xs)
  | .dict kvs => .obj (toJsonDict kvs)

def toJsonList : List PyVal → List JsonVal
  | [] => []
  | x :: xs => x.toJson :: toJsonList xs

def toJsonDict : List (String × PyVal) → List (String × JsonVal)
  | [] => []
  | (k, v) :: kvs => (k, v.toJson) :: toJsonDict kvs

end

mutual

/-- `json.load` of the written document: JSON values come back as the
corresponding Python values (`null` as `None`); nothing comes back as
a datetime. -/
def JsonVal.toPy : JsonVal → PyVal
  | .str s => .str s
  | .int n => .int n
  | .bool b => .bool b
  | .null => .none
  | .arr xs => .list (toPyList xs)
  | .obj kvs => .dict (toPyDict kvs)

def toPyList : List JsonVal → List PyVal
  | [] => []
  | x :: xs => x.toPy :: toPyList xs

def toPyDict : List (String × JsonVal) → List (String × PyVal)
  | [] => []
  | (k, v) :: kvs => (k, v.toPy) :: toPyDict kvs

end

/-- Serialize with `save_inventory` and parse the written JSON back. -/
def roundTrip (v : PyVal) : PyVal := v.toJson.toPy

mutual

/-- A Python value containing no raw datetime object. -/
def datetimeFree : PyVal → Bool
  | .str _ => true
  | .int _ => true
  | .bool _ => true
  | .none => true
  | .datetime _ => false
  | .list xs => datetimeFreeList xs
  | .dict kvs => datetimeFreeDict kvs

def datetimeFreeList : List PyVal → Bool
  | [] => true
  | x :: xs => datetimeFree x && datetimeFreeList xs

def datetimeFreeDict : List (String × PyVal) → Bool
  | [] => true
  | (_, v) :: kvs => datetimeFree v && datetimeFreeDict kvs

end

/-- The full `inventory_data` dict handed to `save_inventory`, with
its keys in source order (lines 895-903 and 953). -/
def Snapshot.toPyVal (s : Snapshot) : PyVal :=
  .dict ([("timestamp", .str s.timestamp),
          ("regions", .dict (s.regions.map (fun r => (r.1, .dict r.2))))] ++
         s.globals.map (fun g => (g.1, g.2.getD .none)))

/- ----------------------------------------------------------------
The default-VPC filter (scripts/service_configs.py, AWS_COMMANDS
entry 'vpc', line 13)
---------------------------------------------------------------- -/

/-- A VPC record as the provider describes it. -/
structure VpcRecord where
  vpcId : String
  cidrBlock : String
  state : String
  isDefault : Bool
deriving DecidableEq, Repr

/-- The VPC enumeration of the CLI-based variant: `describe-vpcs`
invoked with `--filters Name=is-default,Values=false`
(service_configs.py line 13).  The filter makes the provider return
exactly the records whose `IsDefault` attribute is `false`. -/
def vpcCommandResult (provider : List VpcRecord) : List VpcRecord :=
  provider.filter (fun v => v.isDefault = false)

/- ----------------------------------------------------------------
Helper lemmas
---------------------------------------------------------------- -/

mutual

theorem toPy_toJson : ∀ v : PyVal, datetimeFree v = true → v.toJson.toPy = v
  | .str _, _ => rfl
  | .int _, _ => rfl
  | .bool _, _ => rfl
  | .none, _ => rfl
  | .datetime _, h => by simp [datetimeFree] at h
  | .list xs, h => by
      simp only [PyVal.toJson, JsonVal.toPy, PyVal.list.injEq]
      exact toPyList_toJsonList xs (by simpa [datetimeFree] using h)
  | .dict kvs, h => by
      simp only [PyVal.toJson, JsonVal.toPy, PyVal.dict.injEq]
      exact toPyDict_toJsonDict kvs (by simpa [datetimeFree] using h)

theorem toPyList_toJsonList :
    ∀ xs : List PyVal, datetimeFreeList xs = true →
      toPyList (toJsonList xs) = xs
  | [], _ => rfl
  | x :: xs, h => by
      have hh := h
      simp only [datetimeFreeList, Bool.and_eq_true] at hh
      simp only [toJsonList, toPyList, List.cons.injEq]
      exact ⟨toPy_toJson x hh.1, toPyList_toJsonList xs hh.2⟩

theorem toPyDict_toJsonDict :
    ∀ kvs : List (String × PyVal), datetimeFreeDict kvs = true →
      toPyDict (toJsonDict kvs) = kvs
  | [], _ => rfl
  | (k, v) :: kvs, h => by
      have hh := h
      simp only [datetimeFreeDict, Bool.and_eq_true] at hh
      simp only [toJsonDict, toPyDict, List.cons.injEq, Prod.mk.injEq,
        true_and]
      exact ⟨toPy_toJson v hh.1, toPyDict_toJsonDict kvs hh.2⟩

end

/- ----------------------------------------------------------------
Concrete provider behaviours used as test inputs
---------------------------------------------------------------- -/

/-- The value `get_rds_instances` reports when the provider holds one
DB instance and no clusters (services/database.py lines 63-104). -/
def rdsPayload : PyVal :=
  .dict [("instances",
          .list [.dict [("DBInstanceIdentifier", .str "db-1"),
                        ("Engine", .str "postgres"),
                        ("Status", .str "available")]]),
         ("clusters", .list [])]

/-- A provider where every query succeeds: the RDS query returns one
DB instance record and every other query returns an empty list. -/
def benignBehavior : Behavior := fun c =>
  if c.method = "get_rds_instances" then some rdsPayload else some (.list [])

/-- A concrete datetime. -/
def dt0 : Datetime := ⟨2025, 3, 14, 9, 26, 53⟩

/-- A provider where the WAF query result carries a raw datetime in
one response field and every other query returns an empty list. -/
def wafDatetimeBehavior : Behavior := fun c =>
  if c.method = "get_waf_info" then
    some (.dict [("WebACLs",
      .list [.dict [("Name", .str "acl-1"), ("Id", .str "id-1"),
                    ("ARN", .datetime dt0), ("Scope", .str "REGIONAL")]])])
  else some (.list [])

/- ----------------------------------------------------------------
Claim theorems
---------------------------------------------------------------- -/

/-- C1: the claim states that a failure of any single (domain, region)
query degrades to an absent entry and that `generate_inventory`
completes for every possible outcome of the individual domain queries,
including the `vpcs` and `load_balancers` entries.  In fact, for every
provider behaviour (hence every outcome of the domain queries) and
every nonempty region list, `generate_inventory` raises
`AttributeError` while evaluating the `vpcs` entry of `regional_data`,
because `NetworkServices` defines no `get_vpcs` method; the run aborts
without returning a snapshot. -/
theorem C1_nonempty_region_scan_always_raises :
    ∀ (b : Behavior) (ts r : String) (rest : List String),
      (generate_inventory b ts (r :: rest)).2
        = .error (.attributeError "get_vpcs") := by
  intro b ts r rest
  simp [generate_inventory, evalEntries, globalEntrySpecs, regionalEntrySpecs,
    methodsOf, globalServicesMethods, networkServicesMethods,
    databaseServicesMethods, computeServicesMethods, securityServicesMethods,
    scanRegions, scanRegion, Except.map]

/-- C2: the claim states every record a remote call returns appears
exactly once in the snapshot under its single domain key.  In fact,
with a provider whose RDS query returns one DB instance record (and
every other query succeeding), the run over one region aborts with
`AttributeError` before any snapshot containing the record exists;
moreover the `regional_data` literal binds the very same
`get_rds_instances` query to two keys, `rds_info` and `rds_instances`,
so its records are double-keyed by construction. -/
theorem C2_rds_records_lost_and_double_keyed :
    (generate_inventory benignBehavior "t0" ["us-east-1"]).2
      = .error (.attributeError "get_vpcs")
    ∧ (⟨"rds_info", "database", "get_rds_instances", true⟩ ∈ regionalEntrySpecs
       ∧ ⟨"rds_instances", "database", "get_rds_instances", true⟩
           ∈ regionalEntrySpecs) := by
  refine ⟨?_, by decide, by decide⟩
  rfl

/-- C3: the retry wrapper returns the eventual successful result when
a throttling error occurs exactly N < 3 times before success, and
returns `None` after exactly 3 invocations with a total sleep of
1 + 2 = 3 seconds when every invocation throttles. -/
theorem C3_retry_backoff_semantics {V : Type} :
    (∀ (b : Nat → Outcome V) (N : Nat) (v : V), N < 3 →
        (∀ i, i < N → ∃ c, b i = .clientError c ∧ c ∈ throttleCodes) →
        b N = .value v → (make_api_call b).result = some v)
    ∧ (∀ b : Nat → Outcome V,
        (∀ i, i < 3 → ∃ c, b i = .clientError c ∧ c ∈ throttleCodes) →
        make_api_call b = ⟨Option.none, 3, 3⟩) :=
  ⟨fun b N v hN hth hv => make_api_call_throttle_then_value b N v hN hth hv,
   fun b hth => make_api_call_all_throttle b hth⟩

/-- Witness for C3 at concrete behaviours: one throttle then 42, and
always-throttling. -/
theorem C3_retry_backoff_semantics_witness :
    (make_api_call throttleOnceThen42).result = some 42
    ∧ make_api_call alwaysThrottle = ⟨Option.none, 3, 3⟩ :=
  ⟨C3_retry_backoff_semantics.1 throttleOnceThen42 1 42 (by norm_num)
      (fun i hi => ⟨"Throttling", by interval_cases i; exact ⟨rfl, by decide⟩⟩)
      (by decide),
   C3_retry_backoff_semantics.2 alwaysThrottle
      (fun i _ => ⟨"Throttling", rfl, by decide⟩)⟩

/-- C4: a wrapped call raising a non-throttling `ClientError` on its
first invocation makes `make_api_call` return `None` after exactly one
invocation, with no retry and no backoff sleep. -/
theorem C4_nonthrottle_error_no_retry {V : Type} :
    ∀ (b : Nat → Outcome V) (c : String), b 0 = .clientError c →
      c ∉ throttleCodes → make_api_call b = ⟨Option.none, 1, 0⟩ :=
  fun b c h0 hc => make_api_call_nonthrottle_clientError b c h0 hc

/-- Witness for C4 at the concrete `AccessDenied` behaviour. -/
theorem C4_nonthrottle_error_no_retry_witness :
    make_api_call accessDenied = ⟨Option.none, 1, 0⟩ :=
  C4_nonthrottle_error_no_retry accessDenied "AccessDenied" rfl (by decide)

/-- C5 counterexample: the claim counts the S3 bucket-policy
enumeration among the global-scope queries executed exactly once per
run.  With an empty region list the run completes, yet
`get_s3_bucket_policies` is never invoked: it is scheduled inside the
per-region scan (aws_resource_inventory.py line 925), not at the top
level. -/
theorem C5_counterexample_bucket_policies_not_global :
    countMethod (generate_inventory benignBehavior "t0" []).1
        "get_s3_bucket_policies" = 0
    ∧ ∃ s, (generate_inventory benignBehavior "t0" []).2 = .ok s :=
  ⟨rfl, ⟨_, rfl⟩⟩

/-- C5 amended: the five top-level global queries (IAM, S3 buckets,
Route53, CloudFront, WAF) are each invoked exactly once per run
regardless of the region list, and in a completed run their results
sit at the top level of the snapshot; the S3 bucket-policy and IAM
customer-managed-policy enumerations are entries of the per-region
scan instead, so they run zero times for an empty region list and
once (in the first scanned region, which then aborts on `get_vpcs`)
for a nonempty one. -/
theorem C5_amended_globals_once_policies_regional :
    ∀ (b : Behavior) (ts : String) (regions : List String),
      (∀ m ∈ globalServicesMethods,
          countMethod (generate_inventory b ts regions).1 m = 1)
      ∧ (∀ s, (generate_inventory b ts regions).2 = .ok s →
           s.globals.map Prod.fst
             = ["iam", "s3_buckets", "route53_zones", "cloudfront", "waf"])
      ∧ countMethod (generate_inventory b ts regions).1 "get_s3_bucket_policies"
          = min regions.length 1
      ∧ countMethod (generate_inventory b ts regions).1 "get_iam_policies"
          = min regions.length 1 := by
  intro b ts regions
  cases regions with
  | nil =>
    refine ⟨?_, ?_, rfl, rfl⟩
    · intro m hm
      fin_cases hm <;> rfl
    · intro s h
      have h2 : s = ⟨ts,
          toDict [("iam", b ⟨"global_services", "get_iam_info", Option.none⟩),
            ("s3_buckets", b ⟨"global_services", "get_s3_buckets", Option.none⟩),
            ("route53_zones", b ⟨"global_services", "get_route53_info", Option.none⟩),
            ("cloudfront",
              b ⟨"global_services", "get_cloudfront_distributions", Option.none⟩),
            ("waf", b ⟨"global_services", "get_waf_info", Option.none⟩)], []⟩ := by
        cases h
        rfl
      rw [h2]
      rfl
  | cons r rest =>
    have herr : (generate_inventory b ts (r :: rest)).2
        = .error (.attributeError "get_vpcs") := rfl
    refine ⟨?_, ?_, ?_, ?_⟩
    · intro m hm
      fin_cases hm <;> rfl
    · intro s h
      rw [herr] at h
      exact Except.noConfusion h
    · have hmin : min (r :: rest).length 1 = 1 := by
        simp [Nat.min_def]
      rw [hmin]
      rfl
    · have hmin : min (r :: rest).length 1 = 1 := by
        simp [Nat.min_def]
      rw [hmin]
      rfl

/-- Witness for C5 amended at a concrete behaviour and region list. -/
theorem C5_amended_globals_once_policies_regional_witness :
    countMethod (generate_inventory benignBehavior "t0" ["us-east-1"]).1
        "get_iam_info" = 1 :=
  (C5_amended_globals_once_policies_regional benignBehavior "t0"
      ["us-east-1"]).1 "get_iam_info" (by decide)

/-- C6 counterexample: the claim says empty-list query results are
pruned alongside `None` before the snapshot is assembled.  The dict
comprehension of line 954 keeps an empty list: a resource-kind key can
be present with zero records. -/
theorem C6_counterexample_empty_list_kept :
    filterNotNone [("vpc_endpoints", some (PyVal.list []))]
      = [("vpc_endpoints", PyVal.list [])]
    ∧ ("vpc_endpoints", PyVal.list [])
        ∈ filterNotNone [("vpc_endpoints", some (PyVal.list []))] :=
  ⟨rfl, by simp [filterNotNone]⟩

/-- C6 amended: the per-region filter drops exactly the entries whose
query result is `None`; every non-`None` value, the empty list
included, is kept under its key. -/
theorem C6_amended_only_none_pruned :
    ∀ (d : List (String × Option PyVal)) (k : String) (v : PyVal),
      ((k, v) ∈ filterNotNone d ↔ (k, some v) ∈ d) := by
  intro d k v
  simp only [filterNotNone, List.mem_filterMap]
  constructor
  · rintro ⟨⟨k1, v1⟩, h1, h2⟩
    cases v1 with
    | none => simp at h2
    | some w =>
      simp only [Option.map_some', Option.some.injEq, Prod.mk.injEq] at h2
      obtain ⟨hk, hv⟩ := h2
      rw [← hk, ← hv]
      exact h1
  · intro h
    exact ⟨(k, some v), h, rfl⟩

/-- C7 counterexample: the claim says a failing region-discovery call
aborts the run before any scanning.  A `ClientError` from
`describe_regions` is caught inside `get_aws_regions` (aws_utils.py
lines 51-53), which returns an empty region list, and the run then
completes normally, scanning the global services. -/
theorem C7_counterexample_clientError_not_fatal :
    get_aws_regions (.clientError "AuthFailure") = .ok []
    ∧ ∃ s, (runInventory (.clientError "AuthFailure") benignBehavior "t0").2
        = .ok s :=
  ⟨rfl, ⟨_, rfl⟩⟩

/-- C7 amended: a `ClientError` during region discovery degrades to an
empty region list and the run continues (scanning only global
services); an exception of any other class escaping the bootstrap
aborts the run before any method is invoked; a successful discovery
passes the region list through unchanged. -/
theorem C7_amended_bootstrap_semantics :
    (∀ c, get_aws_regions (.clientError c) = .ok [])
    ∧ get_aws_regions .otherError = .error .uncaught
    ∧ (∀ rs, get_aws_regions (.ok rs) = .ok rs)
    ∧ (∀ (b : Behavior) (ts : String),
        runInventory .otherError b ts = ([], .error (.boot .uncaught)))
    ∧ (∀ (c : String) (b : Behavior) (ts : String),
        ∃ s, (runInventory (.clientError c) b ts).2 = .ok s) :=
  ⟨fun _ => rfl, rfl, fun _ => rfl, fun _ _ => rfl, fun _ _ _ => ⟨_, rfl⟩⟩

/-- The snapshot of a completed run over zero regions whose WAF query
result carries a raw datetime field. -/
def dtSnap : Snapshot :=
  ⟨"2026-01-01T00:00:00",
   [("iam", some (.list [])),
    ("s3_buckets", some (.list [])),
    ("route53_zones", some (.list [])),
    ("cloudfront", some (.list [])),
    ("waf", some (.dict [("WebACLs",
       .list [.dict [("Name", .str "acl-1"), ("Id", .str "id-1"),
                     ("ARN", .datetime dt0), ("Scope", .str "REGIONAL")]])]))],
   []⟩

/-- C8 counterexample: the claim says serializing any produced
snapshot and parsing it back reconstructs an equal structure.
`dtSnap` is produced by a completed run, but its raw datetime leaf is
written through `json.dump(..., default=str)` as the `str()` rendering
and parsed back as a string, so the parsed structure differs from the
original. -/
theorem C8_counterexample_datetime_breaks_roundtrip :
    (generate_inventory wafDatetimeBehavior "2026-01-01T00:00:00" []).2
        = .ok dtSnap
    ∧ roundTrip dtSnap.toPyVal ≠ dtSnap.toPyVal := by
  refine ⟨rfl, ?_⟩
  intro h
  simp [dtSnap, Snapshot.toPyVal, roundTrip, PyVal.toJson, toJsonDict,
    toJsonList, JsonVal.toPy, toPyDict, toPyList] at h

/-- C8 amended: the round-trip through `save_inventory` and a JSON
parse reconstructs an equal structure exactly for snapshots whose
values are JSON-native (no raw datetime leaf); a raw datetime leaf is
written via `default=str` as its `str()` rendering (second-level
precision, space-separated) and comes back as that string. -/
theorem C8_amended_roundtrip_datetime_free :
    (∀ v : PyVal, datetimeFree v = true → roundTrip v = v)
    ∧ (∀ d : Datetime, roundTrip (.datetime d) = .str d.pyStr) :=
  ⟨fun v h => toPy_toJson v h, fun _ => rfl⟩

/-- Witness for C8 amended: the inventory structure of a datetime-free
snapshot round-trips unchanged. -/
theorem C8_amended_roundtrip_datetime_free_witness :
    roundTrip (Snapshot.toPyVal ⟨"2026-01-01T00:00:00",
        [("iam", Option.none), ("waf", some (PyVal.list []))], []⟩)
      = Snapshot.toPyVal ⟨"2026-01-01T00:00:00",
        [("iam", Option.none), ("waf", some (PyVal.list []))], []⟩ :=
  C8_amended_roundtrip_datetime_free.1 _ rfl

/-- C9: under the `describe-vpcs` filter `Name=is-default,Values=false`
of the CLI-based variant, a VPC record with `IsDefault` true is absent
from the filtered VPC output and one with `IsDefault` false is
present. -/
theorem C9_default_vpc_filter :
    ∀ (provider : List VpcRecord) (R : VpcRecord), R ∈ provider →
      (R.isDefault = true → R ∉ vpcCommandResult provider)
      ∧ (R.isDefault = false → R ∈ vpcCommandResult provider) := by
  intro provider R hR
  constructor
  · intro hd hmem
    have hp := (List.mem_filter.mp hmem).2
    simp [hd] at hp
  · intro hd
    exact List.mem_filter.mpr ⟨hR, by simp [hd]⟩

/-- A default VPC record. -/
def vpcDefault : VpcRecord := ⟨"vpc-0default", "172.31.0.0/16", "available", true⟩

/-- A non-default VPC record. -/
def vpcCustom : VpcRecord := ⟨"vpc-1abc", "10.0.0.0/16", "available", false⟩

/-- Witness for C9 at a concrete two-record provider state. -/
theorem C9_default_vpc_filter_witness :
    vpcDefault ∉ vpcCommandResult [vpcDefault, vpcCustom]
    ∧ vpcCustom ∈ vpcCommandResult [vpcDefault, vpcCustom] :=
  ⟨(C9_default_vpc_filter [vpcDefault, vpcCustom] vpcDefault
      (by decide)).1 (by decide),
   (C9_default_vpc_filter [vpcDefault, vpcCustom] vpcCustom
      (by decide)).2 (by decide)⟩

/-- A behaviour that returns 7 at once. -/
def valueSeven : Nat → Outcome Nat := fun _ => .value 7

/-- A behaviour that raises a non-`ClientError` exception at once. -/
def alwaysOtherError : Nat → Outcome Nat := fun _ => .otherError

/-- C10: `make_api_call` is total over the behaviour of the wrapped
call: a returned value is passed through, a call that raises on every
attempt (whatever the exception class) yields `None`, and no exception
escapes — every behaviour reaches one of these two clauses. -/
theorem C10_wrapper_totality {V : Type} :
    (∀ (b : Nat → Outcome V) (v : V), b 0 = .value v →
        (make_api_call b).result = some v)
    ∧ (∀ b : Nat → Outcome V, (∀ i v, b i ≠ .value v) →
        (make_api_call b).result = Option.none) :=
  ⟨fun b v h => by rw [make_api_call_first_value b v h],
   fun b h => make_api_call_all_raise b h⟩

/-- Witness for C10 at concrete behaviours. -/
theorem C10_wrapper_totality_witness :
    (make_api_call valueSeven).result = some 7
    ∧ (make_api_call alwaysOtherError).result = Option.none :=
  ⟨C10_wrapper_totality.1 valueSeven 7 rfl,
   C10_wrapper_totality.2 alwaysOtherError
     (fun i v => by simp [alwaysOtherError])⟩
